import Mathlib

/-
Verification of the Kuramoto oscillator simulation (src/kuramoto.py).

The oscillator dynamics (rk4, update, getDistance) are embedded over the
real numbers; the synchronization-detector bookkeeping of the main loop
(parameter snapshot comparison, rolling distance buffer, flatness scan,
synchronization timestamp) is embedded generically over a linear ordered
field so that concrete evaluations can be carried out over the rationals.
-/

namespace Kuramoto

/-- An oscillator: natural frequency and current phase (class `Operator`
in the source; the `name` string only encodes the 1-based index). -/
structure Operator where
  freq : ℝ
  phase : ℝ

/-- The three operators of the simulation (`operator1..3` in the source). -/
structure OpState where
  op1 : Operator
  op2 : Operator
  op3 : Operator

/-- Source `rk4(deriv, y, dt)`: the classic fourth-order Runge-Kutta increment,
exactly as in the source (it returns the increment, not the new value). -/
noncomputable def rk4 (deriv : ℝ → ℝ) (y dt : ℝ) : ℝ :=
  let k1 := dt * deriv y
  let k2 := dt * deriv (y + k1 / 2)
  let k3 := dt * deriv (y + k2 / 2)
  let k4 := dt * deriv (y + k3)
  (k1 + 2 * k2 + 2 * k3 + k4) / 6

/-- Function `dPhase1` from `update()`: derivative of operator 1's phase at trial
phase `phase`, reading operators 2 and 3 at the supplied snapshot `s`. -/
noncomputable def dPhase1 (s : OpState) (K : ℝ) (phase : ℝ) : ℝ :=
  s.op1.freq + K * (Real.sin (s.op2.phase - phase) + Real.sin (s.op3.phase - phase))

/-- Function `dPhase2` from `update()`. -/
noncomputable def dPhase2 (s : OpState) (K : ℝ) (phase : ℝ) : ℝ :=
  s.op2.freq + K * (Real.sin (s.op1.phase - phase) + Real.sin (s.op3.phase - phase))

/-- Function `dPhase3` from `update()`. -/
noncomputable def dPhase3 (s : OpState) (K : ℝ) (phase : ℝ) : ℝ :=
  s.op3.freq + K * (Real.sin (s.op1.phase - phase) + Real.sin (s.op2.phase - phase))

/-- Python `x % (2*pi)` on reals: the representative of `x` in `[0, 2π)`
(Python's `%` takes the sign of the positive divisor). -/
noncomputable def wrapTwoPi (x : ℝ) : ℝ :=
  x - 2 * Real.pi * ⌊x / (2 * Real.pi)⌋

/-- Source `update()`: all three RK4 increments are computed from
the pre-tick snapshot `s` (in the source the three `rk4(...)` calls at
lines 88-90 complete before any `operator*.phase` assignment at lines
91-93), then each phase is incremented and wrapped into `[0, 2π)`. -/
noncomputable def update (s : OpState) (K dt : ℝ) : OpState :=
  let rk4op1 := rk4 (dPhase1 s K) s.op1.phase dt
  let rk4op2 := rk4 (dPhase2 s K) s.op2.phase dt
  let rk4op3 := rk4 (dPhase3 s K) s.op3.phase dt
  { op1 := ⟨s.op1.freq, wrapTwoPi (s.op1.phase + rk4op1)⟩
    op2 := ⟨s.op2.freq, wrapTwoPi (s.op2.phase + rk4op2)⟩
    op3 := ⟨s.op3.freq, wrapTwoPi (s.op3.phase + rk4op3)⟩ }

/-- Source `getDistance(operator1, operator2, r)`: scaled circular distance between
two operators' phases; every call in the program uses the default `r = 200`. -/
noncomputable def getDistance (a b : Operator) (r : ℝ) : ℝ :=
  let angular_distance := |a.phase - b.phase|
  let shorter := min angular_distance (2 * Real.pi - angular_distance)
  r * shorter

/-- One entry of `Settings.max_distance`: the source stores the list
`[distance, operator i, operator j, theOtherDistance1, theOtherDistance2]`. -/
structure DistanceRecord (α : Type) where
  dist : α
  idxI : ℕ
  idxJ : ℕ
  aux1 : α
  aux2 : α

/-- The detector-relevant fields of the `Settings` class together with the
rolling buffer `Settings.max_distance`. -/
structure DetState (α : Type) where
  K : α
  dt : α
  dtCounter : α
  syncTrue : Bool
  syncTime : α
  showSync : Bool
  buffer : List (DistanceRecord α)

/-- The placeholder record `[0, 1, 2, 0, 0]` used to pre-seed the buffer. -/
def placeholderRec (α : Type) [LinearOrderedField α] : DistanceRecord α :=
  ⟨0, 1, 2, 0, 0⟩

/-- Initial value of `Settings.max_distance`: 500 copies of `[0, 1, 2, 0, 0]`. -/
def initBuffer (α : Type) [LinearOrderedField α] : List (DistanceRecord α) :=
  List.replicate 500 (placeholderRec α)

/-- The initial `Settings`: `K = 0.0`, `dt = 0.1`, `dt_counter = 0`,
`syncTrue = False`, `syncTime = 0`, `showSync = True`, pre-seeded buffer. -/
def initState (α : Type) [LinearOrderedField α] : DetState α :=
  { K := 0, dt := 1 / 10, dtCounter := 0, syncTrue := false, syncTime := 0,
    showSync := true, buffer := initBuffer α }

/-- Main-loop lines 263-269: read the (rounded) slider value `kVal`; if it
differs from the previous tick's `Settings.K`, clear `syncTrue`, `syncTime`
and `showSync`; then store `Settings.K = kVal`. -/
def kStep [LinearOrderedField α] (kVal : α) (s : DetState α) : DetState α :=
  if kVal ≠ s.K then
    { s with syncTrue := false, syncTime := 0, showSync := false, K := kVal }
  else
    { s with K := kVal }

/-- Main-loop lines 271-277: the same for the time step `dt`. -/
def dtStep [LinearOrderedField α] (dtVal : α) (s : DetState α) : DetState α :=
  if dtVal ≠ s.dt then
    { s with syncTrue := false, syncTime := 0, showSync := false, dt := dtVal }
  else
    { s with dt := dtVal }

/-- Main-loop line 279: `Settings.dt_counter += dt_slider.getValue()`.
Note the increment is the raw slider value, which the loop rounds to three
decimals before storing it in `Settings.dt`; it is therefore passed here as
a separate input `dtRaw`. -/
def counterStep [LinearOrderedField α] (dtRaw : α) (s : DetState α) : DetState α :=
  { s with dtCounter := s.dtCounter + dtRaw }

/-- Main-loop lines 298-300: drop the oldest record and append this tick's
record (`Settings.max_distance = Settings.max_distance[1:]` + `append`). -/
def bufferStep [LinearOrderedField α] (rec : DistanceRecord α) (s : DetState α) :
    DetState α :=
  { s with buffer := s.buffer.drop 1 ++ [rec] }

/-- The state as it stands right before the stability scan of lines 307-313:
parameter snapshots compared and stored, elapsed time accumulated, and the
new record pushed into the rolling buffer. -/
def preScanState [LinearOrderedField α] (kVal dtVal dtRaw : α)
    (rec : DistanceRecord α) (s : DetState α) : DetState α :=
  bufferStep rec (counterStep dtRaw (dtStep dtVal (kStep kVal s)))

/-- Helper for the flatness scan: checks every consecutive difference along
`a :: rest` starting from the previous entry `a`. -/
def flatCheckFrom [LinearOrderedField α] (a : DistanceRecord α) :
    List (DistanceRecord α) → Bool
  | [] => true
  | b :: rest => decide (b.dist - a.dist ≤ 1 / 1000) && flatCheckFrom b rest

/-- The flatness scan of lines 307-313: `True` unless some consecutive pair
of buffer entries has `later.dist - earlier.dist > 0.001`. (The loop runs
over indices `1..499`, i.e. over every consecutive pair of the length-500
buffer.) Inside the loop the source assigns the bare names `syncTrue` and
`syncTime`, which create module-level globals distinct from the
`Settings.syncTrue` / `Settings.syncTime` attributes and are never read, so
the only net effect of the scan on `Settings` is the `showSync` flag. -/
def flatCheck [LinearOrderedField α] : List (DistanceRecord α) → Bool
  | [] => true
  | a :: rest => flatCheckFrom a rest

/-- Line 307 plus the loop: `Settings.showSync` ends up as the flatness flag
of the (already updated) buffer. -/
def scanStep [LinearOrderedField α] (s : DetState α) : DetState α :=
  { s with showSync := flatCheck s.buffer }

/-- Lines 315-318: if the window is flat, set `Settings.syncTrue = True` and
set `Settings.syncTime = Settings.dt_counter - 350 * Settings.dt` when the
stored timestamp equals `0`, keeping the stored timestamp otherwise. -/
def syncStep [LinearOrderedField α] (s : DetState α) : DetState α :=
  if s.showSync then
    { s with syncTrue := true,
             syncTime := if s.syncTime = 0 then s.dtCounter - 350 * s.dt else s.syncTime }
  else
    s

/-- One pass of the main loop's detector bookkeeping (lines 263-318), as a
function of the externally supplied slider readings and this tick's
distance record. -/
def detectorTick [LinearOrderedField α] (kVal dtVal dtRaw : α)
    (rec : DistanceRecord α) (s : DetState α) : DetState α :=
  syncStep (scanStep (preScanState kVal dtVal dtRaw rec s))

/-- Lines 320-323: the `Synchronized at t=~...` readout is rendered exactly
when `Settings.syncTime > 0`. -/
def displaySync [LinearOrderedField α] (s : DetState α) : Bool :=
  decide (0 < s.syncTime)

/-- Lexicographic order on index pairs, used to state the tie-break rule. -/
def lexLe (p q : ℕ × ℕ) : Prop :=
  p.1 < q.1 ∨ (p.1 = q.1 ∧ p.2 ≤ q.2)

/-- One iteration of the max-distance scan of lines 288-291: the candidate
replaces the running maximum only when its distance is strictly greater. -/
def selStep [LinearOrder β] (acc c : β × ℕ × ℕ) : β × ℕ × ℕ :=
  if acc.1 < c.1 then c else acc

/-- The canonical enumeration `itertools.combinations([op1, op2, op3], 2)`
paired with each pair's distance: `(1,2), (1,3), (2,3)` in that order. -/
def pairList [LinearOrder β] (d12 d13 d23 : β) : List (β × ℕ × ℕ) :=
  [(d12, 1, 2), (d13, 1, 3), (d23, 2, 3)]

/-- Lines 285-291: start from `(getDistance(op1, op2), [1, 2])` and fold the
strictly-greater update over the canonical pair enumeration. -/
def maxPairSel [LinearOrder β] (d12 d13 d23 : β) : β × ℕ × ℕ :=
  (pairList d12 d13 d23).foldl selStep (d12, 1, 2)

/-- Helper for `strictIncr`: compares the previous element `a` with every
element of the remaining list in turn. -/
def strictIncrFrom [LinearOrder β] (a : β) : List β → Bool
  | [] => true
  | b :: rest => decide (a < b) && strictIncrFrom b rest

/-- Is a list strictly increasing? (Used only to state what the pre-seeded
placeholder buffer is claimed to be.) -/
def strictIncr [LinearOrder β] : List β → Bool
  | [] => true
  | a :: rest => strictIncrFrom a rest

/-- Lookup `allOperators[i - 1]` for the 1-based indices used by the source. -/
def opOfIdx (s : OpState) : ℕ → Operator
  | 1 => s.op1
  | 2 => s.op2
  | _ => s.op3

/-- The maximal-pair selection of lines 285-291 instantiated with the
program's actual distances (every call uses the default radius 200). -/
noncomputable def currentMaxSelection (s : OpState) : ℝ × ℕ × ℕ :=
  maxPairSel (getDistance s.op1 s.op2 200) (getDistance s.op1 s.op3 200)
    (getDistance s.op2 s.op3 200)

/-- Lines 285-300: the DistanceRecord pushed this tick. The excluded
operator is `1 + 2 + 3 - (i + j)` and the aux entries are its distances to
the two paired operators. -/
noncomputable def tickRecord (s : OpState) : DistanceRecord ℝ :=
  let m := currentMaxSelection s
  let other := 6 - (m.2.1 + m.2.2)
  { dist := m.1, idxI := m.2.1, idxJ := m.2.2,
    aux1 := getDistance (opOfIdx s m.2.1) (opOfIdx s other) 200,
    aux2 := getDistance (opOfIdx s m.2.2) (opOfIdx s other) 200 }

/-- Operators `operator1..3` as created at startup: frequencies `1, 0.5, 0.25` and
phases `0, 5, 10`. -/
noncomputable def initOperators : OpState :=
  ⟨⟨1, 0⟩, ⟨1 / 2, 5⟩, ⟨1 / 4, 10⟩⟩

/-- One iteration of the main loop (detector-relevant part): `update()` runs
first, using the `Settings.K` / `Settings.dt` stored on the previous
iteration (line 241 precedes the slider reads of lines 263-277), then the
detector bookkeeping runs on this tick's record. -/
noncomputable def progTick (kVal dtVal dtRaw : ℝ) (p : OpState × DetState ℝ) :
    OpState × DetState ℝ :=
  let os := update p.1 p.2.K p.2.dt
  (os, detectorTick kVal dtVal dtRaw (tickRecord os) p.2)

/-- A whole run of the main loop from the initial program state, driven by
an arbitrary finite sequence of slider readings. -/
noncomputable def progRun (l : List (ℝ × ℝ × ℝ)) : OpState × DetState ℝ :=
  l.foldl (fun p i => progTick i.1 i.2.1 i.2.2 p) (initOperators, initState ℝ)

/-- A concrete rational detector state with a flat buffer and an unset
timestamp, reached right before a tick on which the flat condition holds. -/
def flatReadyState : DetState ℚ :=
  { K := 0, dt := 1, dtCounter := 1000, syncTrue := false, syncTime := 0,
    showSync := true, buffer := initBuffer ℚ }

/-- A record whose distance jumps by 1 relative to the zero placeholders. -/
def bigRec : DistanceRecord ℚ :=
  ⟨1, 1, 2, 0, 0⟩

/-- A concrete rational detector state that is currently Synchronized
(`syncTrue = true`, `syncTime = 5`) but whose window stops being flat on the
next tick: the newest buffer entry jumped from distance 0 to distance 1. -/
def staleSyncState : DetState ℚ :=
  { K := 0, dt := 1, dtCounter := 100, syncTrue := true, syncTime := 5,
    showSync := true,
    buffer := List.replicate 499 (placeholderRec ℚ) ++ [bigRec] }

/-- A small flat detector state used to witness per-tick theorems. -/
def smallFlatState : DetState ℚ :=
  { K := 0, dt := 1, dtCounter := 10, syncTrue := false, syncTime := 0,
    showSync := true, buffer := [placeholderRec ℚ, placeholderRec ℚ] }

/-- The same small flat state but with a negative stored timestamp. -/
def smallNegState : DetState ℚ :=
  { smallFlatState with syncTime := -5, syncTrue := true }

/-- Stated from the claim's words, for comparison with `update`: for each
oscillator `i`, with `f_i(θ) = frequency_i + K * Σ_{j ≠ i} sin(phase_j − θ)`
reading every `phase_j` from the pre-tick snapshot, form
`k1 = dt*f_i(p_i)`, `k2 = dt*f_i(p_i + k1/2)`, `k3 = dt*f_i(p_i + k2/2)`,
`k4 = dt*f_i(p_i + k3)`, `delta_i = (k1 + 2*k2 + 2*k3 + k4)/6`, and store
`(p_i + delta_i) mod 2π`. -/
noncomputable def updateSpecClaimC1 (s : OpState) (K dt : ℝ) : OpState :=
  let f1 : ℝ → ℝ := fun θ =>
    s.op1.freq + K * (Real.sin (s.op2.phase - θ) + Real.sin (s.op3.phase - θ))
  let f2 : ℝ → ℝ := fun θ =>
    s.op2.freq + K * (Real.sin (s.op1.phase - θ) + Real.sin (s.op3.phase - θ))
  let f3 : ℝ → ℝ := fun θ =>
    s.op3.freq + K * (Real.sin (s.op1.phase - θ) + Real.sin (s.op2.phase - θ))
  let delta : (ℝ → ℝ) → ℝ → ℝ := fun f p =>
    let k1 := dt * f p
    let k2 := dt * f (p + k1 / 2)
    let k3 := dt * f (p + k2 / 2)
    let k4 := dt * f (p + k3)
    (k1 + 2 * k2 + 2 * k3 + k4) / 6
  { op1 := ⟨s.op1.freq, wrapTwoPi (s.op1.phase + delta f1 s.op1.phase)⟩
    op2 := ⟨s.op2.freq, wrapTwoPi (s.op2.phase + delta f2 s.op2.phase)⟩
    op3 := ⟨s.op3.freq, wrapTwoPi (s.op3.phase + delta f3 s.op3.phase)⟩ }

/- ------------------------------------------------------------------ -/
/- Helper lemmas                                                       -/
/- ------------------------------------------------------------------ -/

/-- Function `wrapTwoPi` always lands in `[0, 2π)`. -/
lemma wrapTwoPi_mem (x : ℝ) : 0 ≤ wrapTwoPi x ∧ wrapTwoPi x < 2 * Real.pi := by
  have h2pi : (0 : ℝ) < 2 * Real.pi := Real.two_pi_pos
  have hne : (2 * Real.pi : ℝ) ≠ 0 := ne_of_gt h2pi
  have hfr : wrapTwoPi x = 2 * Real.pi * Int.fract (x / (2 * Real.pi)) := by
    unfold wrapTwoPi Int.fract
    field_simp
  constructor
  · rw [hfr]
    exact mul_nonneg (le_of_lt h2pi) (Int.fract_nonneg _)
  · rw [hfr]
    calc 2 * Real.pi * Int.fract (x / (2 * Real.pi))
        < 2 * Real.pi * 1 := by
          exact mul_lt_mul_of_pos_left (Int.fract_lt_one _) h2pi
      _ = 2 * Real.pi := mul_one _

/-- Scanning identical records from an identical previous entry passes. -/
lemma flatCheckFrom_replicate [LinearOrderedField α] (r : DistanceRecord α) :
    ∀ n, flatCheckFrom r (List.replicate n r) = true := by
  intro n
  induction n with
  | zero => rfl
  | succ m ih =>
    rw [List.replicate_succ]
    show (decide (r.dist - r.dist ≤ 1 / 1000) && flatCheckFrom r (List.replicate m r)) = true
    rw [ih]
    have h : r.dist - r.dist ≤ 1 / 1000 := by
      rw [sub_self]
      positivity
    simp [h]

/-- A buffer of identical records passes the flatness scan. -/
lemma flatCheck_replicate [LinearOrderedField α] (r : DistanceRecord α) :
    ∀ n, flatCheck (List.replicate n r) = true := by
  intro n
  cases n with
  | zero => rfl
  | succ m =>
    rw [List.replicate_succ]
    show flatCheckFrom r (List.replicate m r) = true
    exact flatCheckFrom_replicate r m

/-- The detector's epsilon is nonnegative. -/
lemma zero_le_thousandth [LinearOrderedField α] : (0 : α) ≤ 1 / 1000 := by
  positivity

/-- Dropping the oldest placeholder and appending a fresh placeholder
reproduces the all-placeholder buffer. -/
lemma drop_one_replicate_append [LinearOrderedField α] (r : DistanceRecord α) :
    (List.replicate 500 r).drop 1 ++ [r] = List.replicate 500 r := by
  conv_lhs => rw [List.replicate_succ]
  rw [List.drop_succ_cons, List.drop_zero, ← List.replicate_succ']

/-- A run of identical records at the head of the scan is skipped over. -/
lemma flatCheckFrom_replicate_append [LinearOrderedField α]
    (r : DistanceRecord α) (l : List (DistanceRecord α)) :
    ∀ n, flatCheckFrom r (List.replicate n r ++ l) = flatCheckFrom r l := by
  intro n
  induction n with
  | zero => rfl
  | succ m ih =>
    rw [List.replicate_succ, List.cons_append]
    show (decide (r.dist - r.dist ≤ 1 / 1000) &&
      flatCheckFrom r (List.replicate m r ++ l)) = flatCheckFrom r l
    rw [ih]
    have h : r.dist - r.dist ≤ 1 / 1000 := by
      rw [sub_self]
      positivity
    simp [h]

/-- The time step stored after a detector tick is the supplied reading. -/
lemma detectorTick_dt [LinearOrderedField α] (kVal dtVal dtRaw : α)
    (rec : DistanceRecord α) (s : DetState α) :
    (detectorTick kVal dtVal dtRaw rec s).dt = dtVal := by
  unfold detectorTick syncStep scanStep preScanState bufferStep counterStep dtStep kStep
  split_ifs <;> rfl

/-- The elapsed-time accumulator after a detector tick. -/
lemma detectorTick_dtCounter [LinearOrderedField α] (kVal dtVal dtRaw : α)
    (rec : DistanceRecord α) (s : DetState α) :
    (detectorTick kVal dtVal dtRaw rec s).dtCounter = s.dtCounter + dtRaw := by
  unfold detectorTick syncStep scanStep preScanState bufferStep counterStep dtStep kStep
  split_ifs <;> rfl

/-- On a flat tick with unchanged parameters and unset timestamp, the
timestamp is set to the back-dated value `elapsed - 350 * dt`. -/
lemma detectorTick_syncTime_set [LinearOrderedField α] (kVal dtVal dtRaw : α)
    (rec : DistanceRecord α) (s : DetState α)
    (hK : kVal = s.K) (hdt : dtVal = s.dt)
    (hflat : flatCheck (s.buffer.drop 1 ++ [rec]) = true)
    (h0 : s.syncTime = 0) :
    (detectorTick kVal dtVal dtRaw rec s).syncTime =
      s.dtCounter + dtRaw - 350 * dtVal := by
  subst hK
  subst hdt
  rw [List.drop_one] at hflat
  simp [detectorTick, syncStep, scanStep, preScanState, bufferStep,
    counterStep, dtStep, kStep, hflat, h0]

/-- On a flat tick with unchanged parameters and nonzero stored timestamp,
the timestamp is retained. -/
lemma detectorTick_syncTime_keep [LinearOrderedField α] (kVal dtVal dtRaw : α)
    (rec : DistanceRecord α) (s : DetState α)
    (hK : kVal = s.K) (hdt : dtVal = s.dt)
    (hflat : flatCheck (s.buffer.drop 1 ++ [rec]) = true)
    (h0 : s.syncTime ≠ 0) :
    (detectorTick kVal dtVal dtRaw rec s).syncTime = s.syncTime := by
  subst hK
  subst hdt
  rw [List.drop_one] at hflat
  simp [detectorTick, syncStep, scanStep, preScanState, bufferStep,
    counterStep, dtStep, kStep, hflat, h0]

/-- On a non-flat tick with unchanged parameters, the detector flag and the
timestamp keep their previous values; only `showSync` is cleared. -/
lemma detectorTick_nonflat [LinearOrderedField α] (kVal dtVal dtRaw : α)
    (rec : DistanceRecord α) (s : DetState α)
    (hK : kVal = s.K) (hdt : dtVal = s.dt)
    (hnf : flatCheck (s.buffer.drop 1 ++ [rec]) = false) :
    (detectorTick kVal dtVal dtRaw rec s).syncTrue = s.syncTrue ∧
    (detectorTick kVal dtVal dtRaw rec s).syncTime = s.syncTime ∧
    (detectorTick kVal dtVal dtRaw rec s).showSync = false := by
  subst hK
  subst hdt
  rw [List.drop_one] at hnf
  simp [detectorTick, syncStep, scanStep, preScanState, bufferStep,
    counterStep, dtStep, kStep, hnf]

/- ------------------------------------------------------------------ -/
/- Claim theorems                                                      -/
/- ------------------------------------------------------------------ -/

/-- Claim C1: on every tick, each oscillator's stored phase becomes
`(oldPhase_i + delta_i) mod 2π` where `delta_i` is the RK4 combination
`(k1 + 2*k2 + 2*k3 + k4)/6` of `f_i(θ) = frequency_i + K * Σ_{j≠i}
sin(phase_j − θ)`, and every `phase_j` read by any derivative evaluation is
the pre-tick stored phase: `update` coincides with the snapshot-based
specification `updateSpecClaimC1` for all states and parameters. -/
theorem update_is_rk4_on_pretick_snapshot (s : OpState) (K dt : ℝ) :
    update s K dt = updateSpecClaimC1 s K dt := rfl

/-- Claim C6: after `update` returns, every stored phase lies in `[0, 2π)`,
for arbitrary coupling strength, time step and starting state. -/
theorem update_phase_wrap_invariant (s : OpState) (K dt : ℝ) :
    (0 ≤ (update s K dt).op1.phase ∧ (update s K dt).op1.phase < 2 * Real.pi) ∧
    (0 ≤ (update s K dt).op2.phase ∧ (update s K dt).op2.phase < 2 * Real.pi) ∧
    (0 ≤ (update s K dt).op3.phase ∧ (update s K dt).op3.phase < 2 * Real.pi) :=
  ⟨wrapTwoPi_mem _, wrapTwoPi_mem _, wrapTwoPi_mem _⟩

/-- Claim C9: for operators with phases in `[0, 2π)`, `getDistance` (at the
program's fixed radius 200) is symmetric, lies between `0` and `200 * π`,
and equals `200 * min |Δ| (2π − |Δ|)` for the phase difference `Δ`. -/
theorem getDistance_symm_bounded (a b : Operator)
    (ha0 : 0 ≤ a.phase) (ha : a.phase < 2 * Real.pi)
    (hb0 : 0 ≤ b.phase) (hb : b.phase < 2 * Real.pi) :
    getDistance a b 200 = getDistance b a 200 ∧
    0 ≤ getDistance a b 200 ∧
    getDistance a b 200 ≤ 200 * Real.pi ∧
    getDistance a b 200 =
      200 * min |a.phase - b.phase| (2 * Real.pi - |a.phase - b.phase|) := by
  have hsym : getDistance a b 200 = getDistance b a 200 := by
    unfold getDistance
    rw [abs_sub_comm]
  have habs0 : 0 ≤ |a.phase - b.phase| := abs_nonneg _
  have habslt : |a.phase - b.phase| < 2 * Real.pi := by
    rw [abs_lt]
    constructor <;> linarith
  have hmin0 : 0 ≤ min |a.phase - b.phase| (2 * Real.pi - |a.phase - b.phase|) :=
    le_min habs0 (by linarith)
  have hminpi : min |a.phase - b.phase| (2 * Real.pi - |a.phase - b.phase|) ≤ Real.pi := by
    rcases le_total |a.phase - b.phase| Real.pi with h | h
    · exact le_trans (min_le_left _ _) h
    · exact le_trans (min_le_right _ _) (by linarith)
  refine ⟨hsym, ?_, ?_, rfl⟩
  · exact mul_nonneg (by norm_num) hmin0
  · exact mul_le_mul_of_nonneg_left hminpi (by norm_num)

/-- Witness for C9 at the concrete operators `⟨1, 0⟩` and `⟨1, 0⟩`. -/
theorem getDistance_symm_bounded_witness :
    ((0 : ℝ) ≤ (⟨1, 0⟩ : Operator).phase ∧ (⟨1, 0⟩ : Operator).phase < 2 * Real.pi) ∧
    (getDistance ⟨1, 0⟩ ⟨1, 0⟩ 200 = getDistance ⟨1, 0⟩ ⟨1, 0⟩ 200 ∧
      0 ≤ getDistance ⟨1, 0⟩ ⟨1, 0⟩ 200 ∧
      getDistance ⟨1, 0⟩ ⟨1, 0⟩ 200 ≤ 200 * Real.pi ∧
      getDistance ⟨1, 0⟩ ⟨1, 0⟩ 200 =
        200 * min |(⟨1, 0⟩ : Operator).phase - (⟨1, 0⟩ : Operator).phase|
          (2 * Real.pi - |(⟨1, 0⟩ : Operator).phase - (⟨1, 0⟩ : Operator).phase|)) :=
  ⟨⟨le_refl 0, Real.two_pi_pos⟩,
    getDistance_symm_bounded ⟨1, 0⟩ ⟨1, 0⟩ (le_refl 0) Real.two_pi_pos
      (le_refl 0) Real.two_pi_pos⟩

/-- Claim C5: whenever the slider reading for `K` or `dt` at a tick differs
from the value stored on the previous tick, the synchronization timestamp
is reset to `0` and the state flag `syncTrue` is forced to `false` in the
state handed to that tick's stability scan. -/
theorem paramChange_clears_before_scan [LinearOrderedField α]
    (kVal dtVal dtRaw : α) (rec : DistanceRecord α) (s : DetState α)
    (h : kVal ≠ s.K ∨ dtVal ≠ s.dt) :
    (preScanState kVal dtVal dtRaw rec s).syncTime = 0 ∧
    (preScanState kVal dtVal dtRaw rec s).syncTrue = false := by
  unfold preScanState bufferStep counterStep dtStep kStep
  split_ifs <;> simp_all

/-- Witness for C5: change `K` from `0` to `1` on the concrete state. -/
theorem paramChange_clears_before_scan_witness :
    ((1 : ℚ) ≠ smallFlatState.K ∨ (1 : ℚ) ≠ smallFlatState.dt) ∧
    ((preScanState (1 : ℚ) 1 1 (placeholderRec ℚ) smallFlatState).syncTime = 0 ∧
     (preScanState (1 : ℚ) 1 1 (placeholderRec ℚ) smallFlatState).syncTrue = false) :=
  ⟨Or.inl (by decide),
   paramChange_clears_before_scan 1 1 1 (placeholderRec ℚ) smallFlatState
     (Or.inl (by decide))⟩

/-- One detector tick preserves the implication `syncTrue = false →
syncTime = 0`, for arbitrary slider readings and distance record. -/
lemma detectorTick_timestamp_inv [LinearOrderedField α]
    (kVal dtVal dtRaw : α) (rec : DistanceRecord α) (s : DetState α)
    (h : s.syncTrue = false → s.syncTime = 0) :
    (detectorTick kVal dtVal dtRaw rec s).syncTrue = false →
    (detectorTick kVal dtVal dtRaw rec s).syncTime = 0 := by
  unfold detectorTick syncStep scanStep preScanState bufferStep counterStep dtStep kStep
  split_ifs <;> simp_all

/-- Claim C7: at every point of every run of the program, if the detector
flag `syncTrue` is `false` (Unsynchronized) then the recorded
synchronization timestamp is still the unset value `0`. -/
theorem unsync_implies_no_timestamp (l : List (ℝ × ℝ × ℝ)) :
    (progRun l).2.syncTrue = false → (progRun l).2.syncTime = 0 := by
  unfold progRun
  suffices h : ∀ (l : List (ℝ × ℝ × ℝ)) (p : OpState × DetState ℝ),
      (p.2.syncTrue = false → p.2.syncTime = 0) →
      ((l.foldl (fun p i => progTick i.1 i.2.1 i.2.2 p) p).2.syncTrue = false →
       (l.foldl (fun p i => progTick i.1 i.2.1 i.2.2 p) p).2.syncTime = 0) by
    exact h l (initOperators, initState ℝ) (fun _ => rfl)
  intro l
  induction l with
  | nil => intro p hp; exact hp
  | cons a as ih =>
    intro p hp
    simp only [List.foldl_cons]
    exact ih _ (detectorTick_timestamp_inv a.1 a.2.1 a.2.2 _ p.2 hp)

/-- Witness for C7: the empty run, whose final state is the initial state. -/
theorem unsync_implies_no_timestamp_witness :
    (progRun []).2.syncTrue = false ∧ (progRun []).2.syncTime = 0 :=
  ⟨rfl, unsync_implies_no_timestamp [] rfl⟩

/-- Counterexample to C2 as stated: on a concrete flat tick (timestamp
unset, elapsed time 1000, time step 1, raw increment 1) the code stores
`651 = 1001 - 350 * 1`, not `elapsedTime - 500 * timeStep = 501`: the
back-dating constant is 350, not the buffer capacity `W = 500`. -/
theorem syncTime_backdate_counterexample :
    (detectorTick (0 : ℚ) 1 1 (placeholderRec ℚ) flatReadyState).syncTime = 651 ∧
    (detectorTick (0 : ℚ) 1 1 (placeholderRec ℚ) flatReadyState).syncTime ≠
      (detectorTick (0 : ℚ) 1 1 (placeholderRec ℚ) flatReadyState).dtCounter -
        500 * (detectorTick (0 : ℚ) 1 1 (placeholderRec ℚ) flatReadyState).dt := by
  have hflat : flatCheck (flatReadyState.buffer.drop 1 ++ [placeholderRec ℚ]) = true := by
    show flatCheck ((initBuffer ℚ).drop 1 ++ [placeholderRec ℚ]) = true
    rw [initBuffer, drop_one_replicate_append]
    exact flatCheck_replicate _ 500
  have hset := detectorTick_syncTime_set (0 : ℚ) 1 1 (placeholderRec ℚ)
    flatReadyState rfl rfl hflat rfl
  have hcnt := detectorTick_dtCounter (0 : ℚ) 1 1 (placeholderRec ℚ) flatReadyState
  have hdt := detectorTick_dt (0 : ℚ) 1 1 (placeholderRec ℚ) flatReadyState
  rw [hset]
  rw [hset] at *
  constructor
  · norm_num [flatReadyState]
  · rw [hcnt, hdt]
    norm_num [flatReadyState]

/-- Claim C2 as amended: on a flat tick with unchanged parameters, if the
stored timestamp equals the unset value `0` it is set to
`elapsedTime - 350 * timeStep` (back-dating by 350 ticks, not by the buffer
capacity `W = 500`); if the stored timestamp is nonzero it is retained
unchanged. -/
theorem syncTime_backdated_350 [LinearOrderedField α]
    (kVal dtVal dtRaw : α) (rec : DistanceRecord α) (s : DetState α)
    (hK : kVal = s.K) (hdt : dtVal = s.dt)
    (hflat : flatCheck (s.buffer.drop 1 ++ [rec]) = true) :
    (s.syncTime = 0 →
      (detectorTick kVal dtVal dtRaw rec s).syncTime =
        s.dtCounter + dtRaw - 350 * dtVal) ∧
    (s.syncTime ≠ 0 →
      (detectorTick kVal dtVal dtRaw rec s).syncTime = s.syncTime) := by
  subst hK
  subst hdt
  rw [List.drop_one] at hflat
  constructor
  · intro h0
    simp [detectorTick, syncStep, scanStep, preScanState, bufferStep,
      counterStep, dtStep, kStep, hflat, h0]
  · intro h0
    simp [detectorTick, syncStep, scanStep, preScanState, bufferStep,
      counterStep, dtStep, kStep, hflat, h0]

/-- Witness for the amended C2 on a concrete flat tick with unset
timestamp. -/
theorem syncTime_backdated_350_witness :
    ((0 : ℚ) = smallFlatState.K ∧ (1 : ℚ) = smallFlatState.dt ∧
      flatCheck (smallFlatState.buffer.drop 1 ++ [placeholderRec ℚ]) = true ∧
      smallFlatState.syncTime = 0) ∧
    (detectorTick (0 : ℚ) 1 2 (placeholderRec ℚ) smallFlatState).syncTime =
      smallFlatState.dtCounter + 2 - 350 * 1 :=
  ⟨⟨rfl, rfl,
    by simp [smallFlatState, placeholderRec, flatCheck, flatCheckFrom, zero_le_thousandth],
    rfl⟩,
   (syncTime_backdated_350 0 1 2 (placeholderRec ℚ) smallFlatState rfl rfl
       (by simp [smallFlatState, placeholderRec, flatCheck, flatCheckFrom,
         zero_le_thousandth])).1 rfl⟩

/-- Claim C10: `0` doubles as the unset sentinel. On a flat tick with
unchanged parameters: a stored timestamp equal to `0` (including one that
was computed as exactly `0`) is overwritten with
`elapsedTime - 350 * timeStep`; a negative stored timestamp is retained
unchanged and the `Synchronized at` readout, which is rendered only when
the stored timestamp is strictly positive, stays hidden. -/
theorem syncTime_zero_sentinel [LinearOrderedField α]
    (kVal dtVal dtRaw : α) (rec : DistanceRecord α) (s : DetState α)
    (hK : kVal = s.K) (hdt : dtVal = s.dt)
    (hflat : flatCheck (s.buffer.drop 1 ++ [rec]) = true) :
    (s.syncTime = 0 →
      (detectorTick kVal dtVal dtRaw rec s).syncTime =
        s.dtCounter + dtRaw - 350 * dtVal) ∧
    (s.syncTime < 0 →
      (detectorTick kVal dtVal dtRaw rec s).syncTime = s.syncTime ∧
      displaySync (detectorTick kVal dtVal dtRaw rec s) = false) := by
  subst hK
  subst hdt
  rw [List.drop_one] at hflat
  constructor
  · intro h0
    simp [detectorTick, syncStep, scanStep, preScanState, bufferStep,
      counterStep, dtStep, kStep, hflat, h0]
  · intro hneg
    have h0 : s.syncTime ≠ 0 := ne_of_lt hneg
    have hval : (detectorTick s.K s.dt dtRaw rec s).syncTime = s.syncTime := by
      simp [detectorTick, syncStep, scanStep, preScanState, bufferStep,
        counterStep, dtStep, kStep, hflat, h0]
    refine ⟨hval, ?_⟩
    simp [displaySync, hval]
    linarith

/-- Witness for C10 on a concrete flat tick with stored timestamp `-5`. -/
theorem syncTime_zero_sentinel_witness :
    ((0 : ℚ) = smallNegState.K ∧ (1 : ℚ) = smallNegState.dt ∧
      flatCheck (smallNegState.buffer.drop 1 ++ [placeholderRec ℚ]) = true ∧
      smallNegState.syncTime < 0) ∧
    ((detectorTick (0 : ℚ) 1 1 (placeholderRec ℚ) smallNegState).syncTime =
        smallNegState.syncTime ∧
      displaySync (detectorTick (0 : ℚ) 1 1 (placeholderRec ℚ) smallNegState) = false) :=
  ⟨⟨rfl, rfl,
    by simp [smallNegState, smallFlatState, placeholderRec, flatCheck,
      flatCheckFrom, zero_le_thousandth],
    by norm_num [smallNegState]⟩,
   (syncTime_zero_sentinel 0 1 1 (placeholderRec ℚ) smallNegState rfl rfl
       (by simp [smallNegState, smallFlatState, placeholderRec, flatCheck,
         flatCheckFrom, zero_le_thousandth])).2 (by norm_num [smallNegState])⟩

/-- Claim C3, evaluation at the failing input: starting from a Synchronized
state (`syncTrue = true`, `syncTime = 5`) whose window stops being flat
(the newest record jumped from distance 0 to 1), a tick with unchanged
parameters computes `showSync = false` for the non-flat window, yet leaves
`Settings.syncTrue = true` and `Settings.syncTime = 5`: the resets on the
scan's failure branch (source lines 311-312) assign never-read module
globals instead of the `Settings` attributes, so the detector does not
transition to Unsynchronized. -/
theorem nonflat_tick_keeps_syncTrue_bug :
    (detectorTick (0 : ℚ) 1 1 (placeholderRec ℚ) staleSyncState).showSync = false ∧
    (detectorTick (0 : ℚ) 1 1 (placeholderRec ℚ) staleSyncState).syncTrue = true ∧
    (detectorTick (0 : ℚ) 1 1 (placeholderRec ℚ) staleSyncState).syncTime = 5 := by
  have hnf : flatCheck (staleSyncState.buffer.drop 1 ++ [placeholderRec ℚ]) = false := by
    show flatCheck ((List.replicate 499 (placeholderRec ℚ) ++ [bigRec]).drop 1 ++
      [placeholderRec ℚ]) = false
    rw [List.replicate_succ, List.cons_append, List.drop_succ_cons, List.drop_zero,
      List.append_assoc]
    rw [List.replicate_succ, List.cons_append]
    show flatCheckFrom (placeholderRec ℚ)
      (List.replicate 497 (placeholderRec ℚ) ++ ([bigRec] ++ [placeholderRec ℚ])) = false
    rw [flatCheckFrom_replicate_append]
    show (decide ((bigRec.dist : ℚ) - (placeholderRec ℚ).dist ≤ 1 / 1000) &&
      flatCheckFrom bigRec [placeholderRec ℚ]) = false
    have h : ¬ ((bigRec.dist : ℚ) - (placeholderRec ℚ).dist ≤ 1 / 1000) := by
      norm_num [bigRec, placeholderRec]
    rw [decide_eq_false h, Bool.false_and]
  obtain ⟨h1, h2, h3⟩ :=
    detectorTick_nonflat (0 : ℚ) 1 1 (placeholderRec ℚ) staleSyncState rfl rfl hnf
  exact ⟨h3, h1.trans rfl, h2.trans rfl⟩

/-- Counterexample to C4 as stated: the pre-seeded buffer's distances are
all `0` — not strictly increasing — and the all-placeholder window itself
already satisfies the flat condition, so the placeholders alone do trigger
the flat check before any real data arrives. -/
theorem placeholder_buffer_flat_counterexample :
    strictIncr ((initBuffer ℚ).map DistanceRecord.dist) = false ∧
    flatCheck (initBuffer ℚ) = true := by
  constructor
  · rw [initBuffer, List.map_replicate]
    rw [List.replicate_succ]
    show strictIncrFrom ((placeholderRec ℚ).dist)
      (List.replicate 499 ((placeholderRec ℚ).dist)) = false
    rw [List.replicate_succ]
    show (decide (((placeholderRec ℚ).dist : ℚ) < (placeholderRec ℚ).dist) &&
      strictIncrFrom ((placeholderRec ℚ).dist)
        (List.replicate 498 ((placeholderRec ℚ).dist))) = false
    rw [decide_eq_false (lt_irrefl _), Bool.false_and]
  · rw [initBuffer]
    exact flatCheck_replicate _ 500

/-- Claim C4 as amended: the buffer is pre-seeded with `W = 500` identical
placeholder records of distance `0` (constant, not strictly increasing),
and this all-placeholder window itself satisfies the flat condition, so the
placeholder construction does not prevent a spurious Synchronized report
before `W` real ticks have elapsed. -/
theorem placeholder_buffer_constant_and_flat (α : Type) [LinearOrderedField α] :
    (initBuffer α).map DistanceRecord.dist = List.replicate 500 (0 : α) ∧
    strictIncr ((initBuffer α).map DistanceRecord.dist) = false ∧
    flatCheck (initBuffer α) = true := by
  refine ⟨?_, ?_, ?_⟩
  · rw [initBuffer, List.map_replicate]
    rfl
  · rw [initBuffer, List.map_replicate]
    rw [List.replicate_succ]
    show strictIncrFrom ((placeholderRec α).dist)
      (List.replicate 499 ((placeholderRec α).dist)) = false
    rw [List.replicate_succ]
    show (decide (((placeholderRec α).dist : α) < (placeholderRec α).dist) &&
      strictIncrFrom ((placeholderRec α).dist)
        (List.replicate 498 ((placeholderRec α).dist))) = false
    rw [decide_eq_false (lt_irrefl _), Bool.false_and]
  · rw [initBuffer]
    exact flatCheck_replicate _ 500

/-- Claim C8: the maximal-pair scan returns the maximum of the three pair
distances, and whenever a pair's distance equals the selected maximum, the
selected pair comes no later than it in the canonical enumeration order
`(1,2), (1,3), (2,3)` (strict-greater replacement means first-wins on
ties), deterministically since `maxPairSel` is a pure function. -/
theorem maxPair_first_wins [LinearOrder β] (d12 d13 d23 : β) :
    (maxPairSel d12 d13 d23).1 = max d12 (max d13 d23) ∧
    ∀ c ∈ pairList d12 d13 d23, c.1 = (maxPairSel d12 d13 d23).1 →
      lexLe (maxPairSel d12 d13 d23).2 c.2 := by
  have hstep : maxPairSel d12 d13 d23 =
      selStep (selStep (d12, 1, 2) (d13, 1, 3)) (d23, 2, 3) := by
    unfold maxPairSel pairList
    simp [List.foldl_cons, List.foldl_nil, selStep]
  rcases lt_or_le d12 d13 with h1 | h1
  · have e1 : selStep ((d12 : β), 1, 2) (d13, 1, 3) = (d13, 1, 3) := by
      simp [selStep, h1]
    rcases lt_or_le d13 d23 with h2 | h2
    · have e2 : selStep ((d13 : β), 1, 3) (d23, 2, 3) = (d23, 2, 3) := by
        simp [selStep, h2]
      rw [hstep, e1, e2]
      constructor
      · show d23 = max d12 (max d13 d23)
        rw [max_eq_right h2.le, max_eq_right (h1.trans h2).le]
      · intro c hc hceq
        simp only [pairList, List.mem_cons, List.not_mem_nil, or_false] at hc
        rcases hc with rfl | rfl | rfl
        · exact absurd hceq (ne_of_lt (h1.trans h2))
        · exact absurd hceq (ne_of_lt h2)
        · exact Or.inr ⟨rfl, le_refl _⟩
    · have e2 : selStep ((d13 : β), 1, 3) (d23, 2, 3) = (d13, 1, 3) := by
        simp [selStep, not_lt.mpr h2]
      rw [hstep, e1, e2]
      constructor
      · show d13 = max d12 (max d13 d23)
        rw [max_eq_left h2, max_eq_right h1.le]
      · intro c hc hceq
        simp only [pairList, List.mem_cons, List.not_mem_nil, or_false] at hc
        rcases hc with rfl | rfl | rfl
        · exact absurd hceq (ne_of_lt h1)
        · exact Or.inr ⟨rfl, le_refl _⟩
        · exact Or.inl (by norm_num)
  · have e1 : selStep ((d12 : β), 1, 2) (d13, 1, 3) = (d12, 1, 2) := by
      simp [selStep, not_lt.mpr h1]
    rcases lt_or_le d12 d23 with h2 | h2
    · have e2 : selStep ((d12 : β), 1, 2) (d23, 2, 3) = (d23, 2, 3) := by
        simp [selStep, h2]
      rw [hstep, e1, e2]
      constructor
      · show d23 = max d12 (max d13 d23)
        rw [max_eq_right (lt_of_le_of_lt h1 h2).le, max_eq_right h2.le]
      · intro c hc hceq
        simp only [pairList, List.mem_cons, List.not_mem_nil, or_false] at hc
        rcases hc with rfl | rfl | rfl
        · exact absurd hceq (ne_of_lt h2)
        · exact absurd hceq (ne_of_lt (lt_of_le_of_lt h1 h2))
        · exact Or.inr ⟨rfl, le_refl _⟩
    · have e2 : selStep ((d12 : β), 1, 2) (d23, 2, 3) = (d12, 1, 2) := by
        simp [selStep, not_lt.mpr h2]
      rw [hstep, e1, e2]
      constructor
      · show d12 = max d12 (max d13 d23)
        rw [max_eq_left (max_le h1 h2)]
      · intro c hc hceq
        simp only [pairList, List.mem_cons, List.not_mem_nil, or_false] at hc
        rcases hc with rfl | rfl | rfl
        · exact Or.inr ⟨rfl, le_refl _⟩
        · exact Or.inr ⟨rfl, by norm_num⟩
        · exact Or.inl (by norm_num)

/-- Witness for C8: distances `5, 3, 5` over `ℕ` tie the pairs `(1,2)` and
`(2,3)` at the maximum `5`; the selected pair is lexicographically no later
than `(2,3)`. -/
theorem maxPair_first_wins_witness :
    ((5 : ℕ), 2, 3) ∈ pairList (5 : ℕ) 3 5 ∧
    ((5 : ℕ), 2, 3).1 = (maxPairSel (5 : ℕ) 3 5).1 ∧
    (maxPairSel (5 : ℕ) 3 5).1 = max 5 (max 3 5) ∧
    lexLe (maxPairSel (5 : ℕ) 3 5).2 (2, 3) :=
  ⟨by decide, by decide, (maxPair_first_wins 5 3 5).1,
   (maxPair_first_wins 5 3 5).2 (5, 2, 3) (by decide) (by decide)⟩

end Kuramoto

